import Mathlib

/-!
Shallow embedding of the fan-controller firmware for the bench power supply
(`src/firmware/main.c`).  The main control loop's persistent variables become
a `LoopState`; one iteration of the `while(1)` body becomes the function
`step`, decomposed into the four phases of the C code: the watchdog tick
(`tickStep`), the temperature sampler (`sampleStep`), the button/override
handler (`buttonStep`) and the fan decision block (`fanDecision`).
All `uint8_t` arithmetic is modelled on `Nat` with explicit `% 256`
(`sub8` is the C expression `(uint8_t)(a - b)`).

The watchdog-reset diagnostic blink loop that runs before the main loop is
modelled separately (`BlinkState`, `blinkStep`), one state transition per
execution of the `WDT_INT_RESET(); _delay_us(100);` delay-loop body, and the
choice between the blink loop and the normal loop is `bootDispatch`.
-/

set_option maxHeartbeats 1000000
set_option maxRecDepth 8000

/-- `#define FAN_OVERRIDE_NONE 0` -/
def FAN_OVERRIDE_NONE : Nat := 0

/-- `#define FAN_OVERRIDE_ON 1` -/
def FAN_OVERRIDE_ON : Nat := 1

/-- `#define FAN_OVERRIDE_OFF 2` -/
def FAN_OVERRIDE_OFF : Nat := 2

/-- `#define FAN_COOL_TIME 125` (125 * 64ms = 8s). -/
def FAN_COOL_TIME : Nat := 125

/-- `#define TEMP_MEASURE_INTERVAL 32` (32 * 64ms = 2s). -/
def TEMP_MEASURE_INTERVAL : Nat := 32

/-- `#define HOT_VAL 23`. -/
def HOT_VAL : Nat := 23

/-- `#define COOL_VAL 27`. -/
def COOL_VAL : Nat := 27

/-- The C expression `(uint8_t)(a - b)` for `uint8_t` operands: subtraction
modulo 256. -/
def sub8 (a b : Nat) : Nat := (a % 256 + 256 - b % 256) % 256

/-- The persistent local variables of `main`, plus the fan output pin
(`PORTB0`, toggled by `FAN_ON()` / `FAN_OFF()`). -/
structure LoopState where
  now : Nat
  lastMeasureTemp : Nat
  lastHotTime : Nat
  hot : Bool
  btnIsPressed : Bool
  fanOverride : Nat
  fan : Bool
deriving DecidableEq

/-- The environment of one loop iteration: whether the watchdog timed out
since the previous iteration (`WDT_TIMEDOUT()`), the raw button level
(`BTN_ISPRESSED()`), and the ADC reading (`ADCL`) that a sample would
return this iteration. -/
structure Input where
  wdtTimedOut : Bool
  btnRaw : Bool
  adcVal : Nat
deriving DecidableEq

/-- Lines 112-116: `if(WDT_TIMEDOUT()) { WDT_INT_RESET(); now++; }`. -/
def tickStep (s : LoopState) (wdtTimedOut : Bool) : LoopState :=
  if wdtTimedOut = true then { s with now := (s.now + 1) % 256 } else s

/-- Lines 144-148: the hysteresis update of `hot` from a raw 8-bit sample. -/
def hysteresis (hot : Bool) (val : Nat) : Bool :=
  if COOL_VAL < val then false
  else if val < HOT_VAL then true
  else hot

/-- Lines 118-152: the temperature sampling block.  It runs only when
`(uint8_t)(now - lastMeasureTemp) >= TEMP_MEASURE_INTERVAL`; it updates
`lastMeasureTemp`, applies the hysteresis to `hot`, and records
`lastHotTime = now` when the resulting `hot` is set. -/
def sampleStep (s : LoopState) (adcVal : Nat) : LoopState :=
  if TEMP_MEASURE_INTERVAL ≤ sub8 s.now s.lastMeasureTemp then
    { s with lastMeasureTemp := s.now,
             hot := hysteresis s.hot (adcVal % 256),
             lastHotTime :=
               if hysteresis s.hot (adcVal % 256) = true then s.now else s.lastHotTime }
  else s

/-- Lines 155-177: the button handler.  A press edge cycles `fanOverride`
NONE→ON→OFF→NONE, forcing the fan output for ON/OFF; on OFF→NONE with
`hot` clear it rewinds `lastHotTime` to `now - FAN_COOL_TIME`.  A release
edge only clears `btnIsPressed`. -/
def buttonStep (s : LoopState) (btnRaw : Bool) : LoopState :=
  if btnRaw = true ∧ s.btnIsPressed = false then
    if s.fanOverride = FAN_OVERRIDE_NONE then
      { s with btnIsPressed := true, fanOverride := FAN_OVERRIDE_ON, fan := true }
    else if s.fanOverride = FAN_OVERRIDE_ON then
      { s with btnIsPressed := true, fanOverride := FAN_OVERRIDE_OFF, fan := false }
    else
      { s with btnIsPressed := true, fanOverride := FAN_OVERRIDE_NONE,
               lastHotTime :=
                 if s.hot = false then sub8 s.now FAN_COOL_TIME else s.lastHotTime }
  else if btnRaw = false ∧ s.btnIsPressed = true then
    { s with btnIsPressed := false }
  else s

/-- Lines 179-188: the automatic fan decision, active only when
`fanOverride == FAN_OVERRIDE_NONE`. -/
def fanDecision (s : LoopState) : LoopState :=
  if s.fanOverride = FAN_OVERRIDE_NONE then
    if s.hot = true ∨ sub8 s.now s.lastHotTime < FAN_COOL_TIME then
      { s with fan := true }
    else
      { s with fan := false, lastHotTime := sub8 s.now FAN_COOL_TIME }
  else s

/-- One full iteration of the `while(1)` body, phases in source order. -/
def step (s : LoopState) (inp : Input) : LoopState :=
  fanDecision (buttonStep (sampleStep (tickStep s inp.wdtTimedOut) inp.adcVal) inp.btnRaw)

/-- Lines 70-75: the variable initialisation at the top of `main`
(the fan pin starts low since `PORTB0` is never set before the loop). -/
def initState : LoopState :=
  { now := 0
    lastMeasureTemp := 0
    lastHotTime := (0 + 256 - FAN_COOL_TIME + 31) % 256
    hot := false
    btnIsPressed := false
    fanOverride := FAN_OVERRIDE_NONE
    fan := false }

/-- Iterated `step` along an input stream `f` starting at `s`. -/
def runF (f : Nat → Input) (s : LoopState) : Nat → LoopState
  | 0 => s
  | k + 1 => step (runF f s k) (f k)

/-- States reachable from the boot state by some sequence of iterations. -/
inductive Reachable : LoopState → Prop
  | init : Reachable initState
  | next {s : LoopState} (inp : Input) : Reachable s → Reachable (step s inp)

/-- Applying `e` watchdog ticks (`now++` mod 256) to a state. -/
def tickN (s : LoopState) : Nat → LoopState
  | 0 => s
  | e + 1 => tickStep (tickN s e) true

/-- The override/fan-forcing invariant of the loop: `fanOverride` is one of
the three enum values, and while an override is engaged the fan output holds
the forced value. -/
def OvInv (s : LoopState) : Prop :=
  s.fanOverride < 3 ∧
  (s.fanOverride = FAN_OVERRIDE_ON → s.fan = true) ∧
  (s.fanOverride = FAN_OVERRIDE_OFF → s.fan = false)

/-- Invariant of the cool-down phase: `k` iterations after the iteration at
tick `T` in which `hot` went false with `lastHotTime = L`, the grace window
is still open (and `lastHotTime` still reads `L`) as long as
`sub8 T L + k < FAN_COOL_TIME`; afterwards the fan is off and `lastHotTime`
is pinned to `now - FAN_COOL_TIME`. -/
def CoolInv (T L k : Nat) (s : LoopState) : Prop :=
  s.fanOverride = FAN_OVERRIDE_NONE ∧ s.hot = false ∧
  s.now = (T + k) % 256 ∧ s.lastMeasureTemp < 256 ∧
  (if sub8 T L + k < FAN_COOL_TIME then s.lastHotTime = L ∧ s.fan = true
   else s.lastHotTime = sub8 s.now FAN_COOL_TIME ∧ s.fan = false)

/-- Input stream for the concrete cool-down run used against C2: the tick
fires every iteration, the button is never pressed, the sample at tick 32
reads hot (10 < HOT_VAL) and every later sample reads cold (30 > COOL_VAL). -/
def c2Inputs (n : Nat) : Input :=
  { wdtTimedOut := true, btnRaw := false, adcVal := if n < 32 then 10 else 30 }

/-- The concrete run from the boot state along `c2Inputs`; after iteration
`n` the tick counter `now` equals `n`. -/
def c2Run : Nat → LoopState
  | 0 => initState
  | n + 1 => step (c2Run n) (c2Inputs n)

/-- Boolean check that the run `c2Run` satisfies the premises of claim C2 on
the whole window of interest: `fanOverride` is NONE throughout, and `hot`
stays false from the transition at tick 64 onwards. -/
def c2ClaimPremises : Bool :=
  (List.range 190).all fun n =>
    (c2Run n).fanOverride == FAN_OVERRIDE_NONE && (decide (n < 64) || !(c2Run n).hot)

/-- A constant all-cold input stream: tick every iteration, button never
pressed, every sample reads 30 (> COOL_VAL). -/
def coolInputsConst : Nat → Input :=
  fun _ => { wdtTimedOut := true, btnRaw := false, adcVal := 30 }

/-- Input stream for the boot run used against C6: the watchdog has just
been re-armed before the first iteration (so the first iteration runs with
`now = 0`), every later iteration sees a tick, the button is never pressed,
and any sample reads fully cold (255). -/
def bootInputs (n : Nat) : Input :=
  { wdtTimedOut := decide (0 < n), btnRaw := false, adcVal := 255 }

/-- The concrete boot run along `bootInputs`; after iteration `n + 1` the
tick counter `now` equals `n`. -/
def bootRun : Nat → LoopState
  | 0 => initState
  | n + 1 => step (bootRun n) (bootInputs n)

/-- Number of `WDT_INT_RESET(); _delay_us(100);` iterations of the first
delay loop of the diagnostic blink loop (lines 85-89): ~2 s fan off. -/
def BLINK_OFF_STEPS : Nat := 20000

/-- Number of delay-loop iterations of the second delay loop of the blink
loop (lines 95-99): ~0.5 s fan on. -/
def BLINK_ON_STEPS : Nat := 5000

/-- Duration of one blink-loop delay step (`_delay_us(100)`), in µs. -/
def DELAY_STEP_US : Nat := 100

/-- The watchdog timeout armed by `get_rstflr` (`wdt_enable(WDTO_60MS)`), in µs. -/
def WDT_TIMEOUT_US : Nat := 60000

/-- State of the diagnostic blink loop (lines 82-103): the fan pin, which of
the two delay loops is executing (`phase2 = true` for the post-`FAN_ON()`
loop), the delay-loop counter `i`, and whether the watchdog was re-armed by
the most recent delay step (`WDT_INT_RESET()` opens every delay-step body). -/
structure BlinkState where
  fan : Bool
  phase2 : Bool
  i : Nat
  armed : Bool
deriving DecidableEq

/-- Blink-loop state on entry: the fan pin is still low, the first delay
loop is about to run, and the watchdog was armed by `get_rstflr`. -/
def blinkInit : BlinkState :=
  { fan := false, phase2 := false, i := 0, armed := true }

/-- One execution of a blink delay-step body `WDT_INT_RESET(); _delay_us(100);`,
together with the `FAN_ON()` / `FAN_OFF()` that runs when the enclosing `for`
loop completes. -/
def blinkStep (s : BlinkState) : BlinkState :=
  if s.phase2 = false then
    if s.i + 1 < BLINK_OFF_STEPS then { s with i := s.i + 1, armed := true }
    else { fan := true, phase2 := true, i := 0, armed := true }
  else
    if s.i + 1 < BLINK_ON_STEPS then { s with i := s.i + 1, armed := true }
    else { fan := false, phase2 := false, i := 0, armed := true }

/-- The blink-loop state after `t` delay steps. -/
def blinkIter : Nat → BlinkState
  | 0 => blinkInit
  | t + 1 => blinkStep (blinkIter t)

/-- Closed form of the blink-loop state after `t` delay steps: the loop has
period `BLINK_OFF_STEPS + BLINK_ON_STEPS`, fan off in the first
`BLINK_OFF_STEPS` steps of each period and on in the rest. -/
def blinkSpec (t : Nat) : BlinkState :=
  if t % (BLINK_OFF_STEPS + BLINK_ON_STEPS) < BLINK_OFF_STEPS then
    { fan := false, phase2 := false,
      i := t % (BLINK_OFF_STEPS + BLINK_ON_STEPS), armed := true }
  else
    { fan := true, phase2 := true,
      i := t % (BLINK_OFF_STEPS + BLINK_ON_STEPS) - BLINK_OFF_STEPS, armed := true }

/-- Bit index of `WDRF` (watchdog reset flag) in the reset-cause register. -/
def WDRF : Nat := 3

/-- Overall mode after boot: either stuck in the diagnostic blink loop, or
running the normal control loop. -/
inductive SysMode where
  | blink : BlinkState → SysMode
  | normal : LoopState → SysMode
deriving DecidableEq

/-- Lines 80-106: the one-shot dispatch after the variable initialisation:
if the captured reset-cause mirror has `WDRF` set, enter the blink loop,
otherwise fall through to the normal control loop. -/
def bootDispatch (rstflrMirror : Nat) : SysMode :=
  if rstflrMirror.testBit WDRF then SysMode.blink blinkInit
  else SysMode.normal initState

/-- One step of the whole system: a blink delay step in blink mode, a full
loop iteration in normal mode.  The blink loop reads no inputs. -/
def sysStep (m : SysMode) (inp : Input) : SysMode :=
  match m with
  | SysMode.blink b => SysMode.blink (blinkStep b)
  | SysMode.normal s => SysMode.normal (step s inp)

/-- Iterated `sysStep` along a list of inputs. -/
def sysRun (m : SysMode) : List Input → SysMode
  | [] => m
  | inp :: rest => sysRun (sysStep m inp) rest

/-! ### Arithmetic facts about `sub8` -/

theorem sub8_lt_256 (a b : Nat) : sub8 a b < 256 := by
  unfold sub8; omega

theorem sub8_rewind (a : Nat) : sub8 a (sub8 a FAN_COOL_TIME) = FAN_COOL_TIME := by
  unfold sub8 FAN_COOL_TIME; omega

theorem sub8_succ_rewind (a : Nat) :
    sub8 ((a + 1) % 256) (sub8 a FAN_COOL_TIME) = 126 := by
  unfold sub8 FAN_COOL_TIME; omega

theorem sub8_add_left (a b j : Nat) (ha : a < 256) :
    sub8 ((a + j) % 256) b = (sub8 a b + j) % 256 := by
  unfold sub8; omega

/-! ### Frame lemmas for the individual phases -/

theorem tickStep_frame (s : LoopState) (w : Bool) :
    (tickStep s w).lastMeasureTemp = s.lastMeasureTemp ∧
    (tickStep s w).lastHotTime = s.lastHotTime ∧
    (tickStep s w).hot = s.hot ∧
    (tickStep s w).btnIsPressed = s.btnIsPressed ∧
    (tickStep s w).fanOverride = s.fanOverride ∧
    (tickStep s w).fan = s.fan := by
  unfold tickStep; split <;> exact ⟨rfl, rfl, rfl, rfl, rfl, rfl⟩

theorem sampleStep_frame (s : LoopState) (adcVal : Nat) :
    (sampleStep s adcVal).now = s.now ∧
    (sampleStep s adcVal).btnIsPressed = s.btnIsPressed ∧
    (sampleStep s adcVal).fanOverride = s.fanOverride ∧
    (sampleStep s adcVal).fan = s.fan := by
  unfold sampleStep; split <;> exact ⟨rfl, rfl, rfl, rfl⟩

theorem buttonStep_frame (s : LoopState) (b : Bool) :
    (buttonStep s b).now = s.now ∧
    (buttonStep s b).lastMeasureTemp = s.lastMeasureTemp ∧
    (buttonStep s b).hot = s.hot := by
  unfold buttonStep; split
  · split
    · exact ⟨rfl, rfl, rfl⟩
    · split
      · exact ⟨rfl, rfl, rfl⟩
      · exact ⟨rfl, rfl, rfl⟩
  · split
    · exact ⟨rfl, rfl, rfl⟩
    · exact ⟨rfl, rfl, rfl⟩

theorem fanDecision_frame (s : LoopState) :
    (fanDecision s).now = s.now ∧
    (fanDecision s).lastMeasureTemp = s.lastMeasureTemp ∧
    (fanDecision s).hot = s.hot ∧
    (fanDecision s).btnIsPressed = s.btnIsPressed ∧
    (fanDecision s).fanOverride = s.fanOverride := by
  unfold fanDecision; split
  · split
    · exact ⟨rfl, rfl, rfl, rfl, rfl⟩
    · exact ⟨rfl, rfl, rfl, rfl, rfl⟩
  · exact ⟨rfl, rfl, rfl, rfl, rfl⟩

/-- When the raw button level is low, the button handler can only clear
`btnIsPressed`; every other field is untouched. -/
theorem buttonStep_false_frame (s : LoopState) :
    (buttonStep s false).now = s.now ∧
    (buttonStep s false).lastMeasureTemp = s.lastMeasureTemp ∧
    (buttonStep s false).lastHotTime = s.lastHotTime ∧
    (buttonStep s false).hot = s.hot ∧
    (buttonStep s false).fanOverride = s.fanOverride ∧
    (buttonStep s false).fan = s.fan := by
  unfold buttonStep
  rw [if_neg (by simp)]
  split
  · exact ⟨rfl, rfl, rfl, rfl, rfl, rfl⟩
  · exact ⟨rfl, rfl, rfl, rfl, rfl, rfl⟩

/-- The automatic fan decision, unfolded: with no override engaged, the fan
goes on exactly when `hot` or the grace window is open; otherwise it goes
off and `lastHotTime` is rewound to `now - FAN_COOL_TIME`. -/
theorem fanDecision_auto (s : LoopState) (hov : s.fanOverride = FAN_OVERRIDE_NONE) :
    ((s.hot = true ∨ sub8 s.now s.lastHotTime < FAN_COOL_TIME) →
        fanDecision s = { s with fan := true }) ∧
    (s.hot = false → FAN_COOL_TIME ≤ sub8 s.now s.lastHotTime →
        fanDecision s = { s with fan := false, lastHotTime := sub8 s.now FAN_COOL_TIME }) := by
  constructor
  · intro h
    unfold fanDecision
    rw [if_pos hov, if_pos h]
  · intro hhot hage
    unfold fanDecision
    rw [if_pos hov, if_neg ?_]
    rintro (h1 | h2)
    · rw [hhot] at h1; exact Bool.false_ne_true h1
    · omega

/-! ### Claim C1 -/

/-- C1: In every main-loop iteration in which `fanOverride == NONE`, after
the sampling and input steps the fan output is set ON if `hot` is true or
the modular age `(now - lastHotTime) mod 256` is strictly less than
`FAN_COOL_TIME` (125 ticks); otherwise the fan output is set OFF and
`lastHotTime` is set to `now - FAN_COOL_TIME` (mod 256), so the age then
reads exactly `FAN_COOL_TIME`. -/
theorem claim_C1 (s : LoopState) (hov : s.fanOverride = FAN_OVERRIDE_NONE) :
    ((s.hot = true ∨ sub8 s.now s.lastHotTime < FAN_COOL_TIME) →
        fanDecision s = { s with fan := true }) ∧
    (s.hot = false → FAN_COOL_TIME ≤ sub8 s.now s.lastHotTime →
        fanDecision s = { s with fan := false, lastHotTime := sub8 s.now FAN_COOL_TIME } ∧
        sub8 (fanDecision s).now (fanDecision s).lastHotTime = FAN_COOL_TIME) := by
  obtain ⟨hon, hoff⟩ := fanDecision_auto s hov
  refine ⟨hon, fun hhot hage => ?_⟩
  have heq := hoff hhot hage
  refine ⟨heq, ?_⟩
  rw [heq]
  exact sub8_rewind s.now

/-- Witness for C1 at the boot state, whose grace window is open. -/
theorem claim_C1_witness :
    fanDecision initState = { initState with fan := true } :=
  (claim_C1 initState rfl).1 (Or.inr (by decide))

/-! ### Claim C3 -/

/-- C3: At each temperature sample with raw 8-bit value `val`, the sampler
sets `hot` to false exactly when `val > COOL_VAL` (27), sets `hot` to true
exactly when `val < HOT_VAL` (23), and leaves `hot` unchanged for every
`val` with `HOT_VAL ≤ val ≤ COOL_VAL` (boundaries included); afterwards it
sets `lastHotTime = now` exactly when the resulting `hot` is true, and
leaves `lastHotTime` unchanged otherwise. -/
theorem claim_C3 (s : LoopState) (adcVal : Nat)
    (hs : TEMP_MEASURE_INTERVAL ≤ sub8 s.now s.lastMeasureTemp) :
    (COOL_VAL < adcVal % 256 → (sampleStep s adcVal).hot = false) ∧
    (adcVal % 256 < HOT_VAL → (sampleStep s adcVal).hot = true) ∧
    (HOT_VAL ≤ adcVal % 256 → adcVal % 256 ≤ COOL_VAL →
        (sampleStep s adcVal).hot = s.hot) ∧
    ((sampleStep s adcVal).hot = true → (sampleStep s adcVal).lastHotTime = s.now) ∧
    ((sampleStep s adcVal).hot = false →
        (sampleStep s adcVal).lastHotTime = s.lastHotTime) := by
  unfold sampleStep
  rw [if_pos hs]
  refine ⟨fun h => ?_, fun h => ?_, fun h1 h2 => ?_, fun h => ?_, fun h => ?_⟩
  · show hysteresis s.hot (adcVal % 256) = false
    unfold hysteresis; rw [if_pos h]
  · show hysteresis s.hot (adcVal % 256) = true
    have h27 : ¬ COOL_VAL < adcVal % 256 := by unfold COOL_VAL HOT_VAL at *; omega
    unfold hysteresis; rw [if_neg h27, if_pos h]
  · show hysteresis s.hot (adcVal % 256) = s.hot
    have h27 : ¬ COOL_VAL < adcVal % 256 := by omega
    have h23 : ¬ adcVal % 256 < HOT_VAL := by omega
    unfold hysteresis; rw [if_neg h27, if_neg h23]
  · replace h : hysteresis s.hot (adcVal % 256) = true := h
    show (if hysteresis s.hot (adcVal % 256) = true then s.now else s.lastHotTime) = s.now
    rw [if_pos h]
  · replace h : hysteresis s.hot (adcVal % 256) = false := h
    show (if hysteresis s.hot (adcVal % 256) = true then s.now else s.lastHotTime)
        = s.lastHotTime
    rw [if_neg (by simp [h])]

/-- Witness for C3 at a concrete sampling state (`now = 40`, last sample at
tick 0, raw value 30). -/
theorem claim_C3_witness :
    (COOL_VAL < 30 % 256 →
        (sampleStep ⟨40, 0, 5, true, false, 0, true⟩ 30).hot = false) ∧
    (30 % 256 < HOT_VAL →
        (sampleStep ⟨40, 0, 5, true, false, 0, true⟩ 30).hot = true) ∧
    (HOT_VAL ≤ 30 % 256 → 30 % 256 ≤ COOL_VAL →
        (sampleStep ⟨40, 0, 5, true, false, 0, true⟩ 30).hot
          = (⟨40, 0, 5, true, false, 0, true⟩ : LoopState).hot) ∧
    ((sampleStep ⟨40, 0, 5, true, false, 0, true⟩ 30).hot = true →
        (sampleStep ⟨40, 0, 5, true, false, 0, true⟩ 30).lastHotTime = 40) ∧
    ((sampleStep ⟨40, 0, 5, true, false, 0, true⟩ 30).hot = false →
        (sampleStep ⟨40, 0, 5, true, false, 0, true⟩ 30).lastHotTime = 5) :=
  claim_C3 ⟨40, 0, 5, true, false, 0, true⟩ 30 (by decide)

/-! ### Claim C5 -/

theorem tickN_now (s : LoopState) (h : s.now < 256) (e : Nat) :
    (tickN s e).now = (s.now + e) % 256 := by
  induction e with
  | zero => unfold tickN; omega
  | succ e ih =>
      show (tickStep (tickN s e) true).now = (s.now + (e + 1)) % 256
      unfold tickStep
      rw [if_pos rfl]
      show ((tickN s e).now + 1) % 256 = _
      rw [ih]
      omega

theorem tickN_lastHotTime (s : LoopState) (e : Nat) :
    (tickN s e).lastHotTime = s.lastHotTime := by
  induction e with
  | zero => rfl
  | succ e ih =>
      show (tickStep (tickN s e) true).lastHotTime = s.lastHotTime
      rw [(tickStep_frame (tickN s e) true).2.1, ih]

/-- C5: For all 8-bit `now` and `lastHotTime`, the age computation
`(uint8_t)(now - lastHotTime)` equals the number of ticks elapsed since
`lastHotTime` was recorded, modulo 256, even across wraparound of `now`:
if `lastHotTime` was recorded equal to `now` and `e` watchdog ticks have
elapsed since, the age reads `e % 256`; in particular `now = 2` with
`lastHotTime = 254` yields age 4. -/
theorem claim_C5 (s : LoopState) (e : Nat) (h : s.now < 256)
    (hrec : s.lastHotTime = s.now) :
    sub8 (tickN s e).now (tickN s e).lastHotTime = e % 256 ∧ sub8 2 254 = 4 := by
  refine ⟨?_, by decide⟩
  rw [tickN_now s h e, tickN_lastHotTime s e, hrec]
  unfold sub8
  omega

/-- Witness for C5: the wraparound example from the spec, 4 ticks after
`lastHotTime` was recorded at tick 254. -/
theorem claim_C5_witness :
    sub8 (tickN ⟨254, 0, 254, true, false, 0, true⟩ 4).now
        (tickN ⟨254, 0, 254, true, false, 0, true⟩ 4).lastHotTime = 4 % 256 ∧
    sub8 2 254 = 4 :=
  claim_C5 ⟨254, 0, 254, true, false, 0, true⟩ 4 (by decide) rfl

/-! ### Claim C7 -/

/-- C7: When a press edge cycles `fanOverride` from OFF back to NONE and
`hot` is false at that moment, `lastHotTime` is rewound to
`now - FAN_COOL_TIME` (mod 256), so the grace window is already expired
(the age reads exactly `FAN_COOL_TIME`) and the automatic decision in that
same iteration turns the fan OFF. -/
theorem claim_C7 (s : LoopState) (hov : s.fanOverride = FAN_OVERRIDE_OFF)
    (hhot : s.hot = false) (hbtn : s.btnIsPressed = false) :
    (buttonStep s true).fanOverride = FAN_OVERRIDE_NONE ∧
    (buttonStep s true).lastHotTime = sub8 s.now FAN_COOL_TIME ∧
    sub8 (buttonStep s true).now (buttonStep s true).lastHotTime = FAN_COOL_TIME ∧
    (fanDecision (buttonStep s true)).fan = false ∧
    (fanDecision (buttonStep s true)).lastHotTime = sub8 s.now FAN_COOL_TIME := by
  have hbs : buttonStep s true =
      { s with btnIsPressed := true, fanOverride := FAN_OVERRIDE_NONE,
               lastHotTime := sub8 s.now FAN_COOL_TIME } := by
    unfold buttonStep
    rw [if_pos ⟨rfl, hbtn⟩, if_neg (by rw [hov]; decide), if_neg (by rw [hov]; decide),
      if_pos hhot]
  have hage : sub8 (buttonStep s true).now (buttonStep s true).lastHotTime
      = FAN_COOL_TIME := by
    rw [hbs]
    exact sub8_rewind s.now
  have hfd : fanDecision (buttonStep s true) =
      { (buttonStep s true) with fan := false,
                                 lastHotTime := sub8 (buttonStep s true).now FAN_COOL_TIME } := by
    refine ((fanDecision_auto (buttonStep s true) (by rw [hbs])).2 ?_ ?_)
    · rw [hbs]; exact hhot
    · rw [hage]
  refine ⟨by rw [hbs], by rw [hbs], hage, by rw [hfd], ?_⟩
  rw [hfd]
  show sub8 (buttonStep s true).now FAN_COOL_TIME = sub8 s.now FAN_COOL_TIME
  rw [hbs]

/-- Witness for C7 at a concrete state with the override at OFF. -/
theorem claim_C7_witness :
    (buttonStep ⟨7, 0, 3, false, false, 2, false⟩ true).fanOverride = FAN_OVERRIDE_NONE ∧
    (buttonStep ⟨7, 0, 3, false, false, 2, false⟩ true).lastHotTime = sub8 7 FAN_COOL_TIME ∧
    sub8 (buttonStep ⟨7, 0, 3, false, false, 2, false⟩ true).now
        (buttonStep ⟨7, 0, 3, false, false, 2, false⟩ true).lastHotTime = FAN_COOL_TIME ∧
    (fanDecision (buttonStep ⟨7, 0, 3, false, false, 2, false⟩ true)).fan = false ∧
    (fanDecision (buttonStep ⟨7, 0, 3, false, false, 2, false⟩ true)).lastHotTime
        = sub8 7 FAN_COOL_TIME :=
  claim_C7 ⟨7, 0, 3, false, false, 2, false⟩ rfl rfl rfl

/-! ### Claim C8 -/

theorem hysteresis_stays_hot (v : Nat) (hv : v ≤ COOL_VAL) :
    hysteresis true v = true := by
  unfold hysteresis
  rw [if_neg (by omega)]
  split <;> rfl

theorem hysteresis_dead_band (b : Bool) (v : Nat) (h1 : HOT_VAL ≤ v) (h2 : v ≤ COOL_VAL) :
    hysteresis b v = b := by
  unfold hysteresis
  rw [if_neg (by omega), if_neg (by omega)]

/-- C8: Once `hot` becomes true at some sample, `hot` remains true across
every subsequent sample until a sample reads a value strictly greater than
`COOL_VAL` (27); and no sequence of samples whose values lie in the dead
band `HOT_VAL ≤ val ≤ COOL_VAL` ever flips `hot` in either direction. -/
theorem claim_C8 :
    (∀ vals : List Nat, (∀ v ∈ vals, v ≤ COOL_VAL) →
        List.foldl hysteresis true vals = true) ∧
    (∀ (b : Bool) (vals : List Nat), (∀ v ∈ vals, HOT_VAL ≤ v ∧ v ≤ COOL_VAL) →
        List.foldl hysteresis b vals = b) := by
  constructor
  · intro vals
    induction vals with
    | nil => intro _; rfl
    | cons v t ih =>
        intro h
        show List.foldl hysteresis (hysteresis true v) t = true
        rw [hysteresis_stays_hot v (h v (List.mem_cons_self v t))]
        exact ih fun w hw => h w (List.mem_cons_of_mem v hw)
  · intro b vals
    induction vals generalizing b with
    | nil => intro _; rfl
    | cons v t ih =>
        intro h
        show List.foldl hysteresis (hysteresis b v) t = b
        rw [hysteresis_dead_band b v (h v (List.mem_cons_self v t)).1
          (h v (List.mem_cons_self v t)).2]
        exact ih b fun w hw => h w (List.mem_cons_of_mem v hw)

/-- Witness for C8: a hot state survives samples at 25, 23, 27 and 0, and a
dead-band sample sequence leaves a cold state cold. -/
theorem claim_C8_witness :
    List.foldl hysteresis true [25, 23, 27, 0] = true ∧
    List.foldl hysteresis false [23, 27, 25] = false :=
  ⟨claim_C8.1 [25, 23, 27, 0] (by decide), claim_C8.2 false [23, 27, 25] (by decide)⟩

/-! ### Claim C10 -/

/-- C10: A button release (pressed to not-pressed transition observed by the
per-iteration poll) changes only `btnIsPressed`, setting it to false;
`fanOverride`, `hot`, `lastHotTime`, `lastMeasureTemp`, `now` and the fan
output are all left unchanged by the release branch.  Holding the button
down leaves the button handler inert, so across a full iteration with the
raw level still pressed `fanOverride` does not advance again. -/
theorem claim_C10 (s : LoopState) (inp : Input) (hp : s.btnIsPressed = true) :
    buttonStep s false = { s with btnIsPressed := false } ∧
    buttonStep s true = s ∧
    (inp.btnRaw = true →
        (step s inp).btnIsPressed = true ∧ (step s inp).fanOverride = s.fanOverride) := by
  have hrel : buttonStep s false = { s with btnIsPressed := false } := by
    unfold buttonStep
    rw [if_neg (by simp), if_pos ⟨rfl, hp⟩]
  have hheld : ∀ t : LoopState, t.btnIsPressed = true → buttonStep t true = t := by
    intro t ht
    unfold buttonStep
    rw [if_neg (by simp [ht]), if_neg (by simp)]
  refine ⟨hrel, hheld s hp, fun hb => ?_⟩
  unfold step
  rw [hb]
  have hmid : (sampleStep (tickStep s inp.wdtTimedOut) inp.adcVal).btnIsPressed = true := by
    rw [(sampleStep_frame _ _).2.1, (tickStep_frame _ _).2.2.2.1, hp]
  rw [hheld _ hmid]
  constructor
  · rw [(fanDecision_frame _).2.2.2.1, hmid]
  · rw [(fanDecision_frame _).2.2.2.2, (sampleStep_frame _ _).2.2.1,
      (tickStep_frame _ _).2.2.2.2.1]

/-- Witness for C10 at a concrete held-button state. -/
theorem claim_C10_witness :
    buttonStep ⟨9, 0, 4, true, true, 1, true⟩ false
        = { (⟨9, 0, 4, true, true, 1, true⟩ : LoopState) with btnIsPressed := false } ∧
    buttonStep ⟨9, 0, 4, true, true, 1, true⟩ true = ⟨9, 0, 4, true, true, 1, true⟩ ∧
    ((⟨true, true, 200⟩ : Input).btnRaw = true →
        (step ⟨9, 0, 4, true, true, 1, true⟩ ⟨true, true, 200⟩).btnIsPressed = true ∧
        (step ⟨9, 0, 4, true, true, 1, true⟩ ⟨true, true, 200⟩).fanOverride = 1) :=
  claim_C10 ⟨9, 0, 4, true, true, 1, true⟩ ⟨true, true, 200⟩ rfl

/-! ### Claim C4 -/

theorem ovInv_init : OvInv initState := by
  unfold OvInv
  decide

theorem ovInv_buttonStep (s : LoopState) (b : Bool) (h : OvInv s) :
    OvInv (buttonStep s b) := by
  obtain ⟨h3, hon, hoff⟩ := h
  unfold OvInv buttonStep
  split
  · split
    · refine ⟨?_, fun _ => rfl, fun hc => ?_⟩
      · show FAN_OVERRIDE_ON < 3
        decide
      · exact absurd hc (show FAN_OVERRIDE_ON ≠ FAN_OVERRIDE_OFF by decide)
    · split
      · refine ⟨?_, fun hc => ?_, fun _ => rfl⟩
        · show FAN_OVERRIDE_OFF < 3
          decide
        · exact absurd hc (show FAN_OVERRIDE_OFF ≠ FAN_OVERRIDE_ON by decide)
      · refine ⟨?_, fun hc => ?_, fun hc => ?_⟩
        · show FAN_OVERRIDE_NONE < 3
          decide
        · exact absurd hc (show FAN_OVERRIDE_NONE ≠ FAN_OVERRIDE_ON by decide)
        · exact absurd hc (show FAN_OVERRIDE_NONE ≠ FAN_OVERRIDE_OFF by decide)
  · split
    · exact ⟨h3, hon, hoff⟩
    · exact ⟨h3, hon, hoff⟩

theorem ovInv_fanDecision (s : LoopState) (h : OvInv s) : OvInv (fanDecision s) := by
  obtain ⟨h3, hon, hoff⟩ := h
  unfold OvInv fanDecision
  split
  · rename_i hov
    split
    · refine ⟨h3, fun _ => rfl, fun hc => ?_⟩
      have hc2 : s.fanOverride = FAN_OVERRIDE_OFF := hc
      rw [hov] at hc2
      exact absurd hc2 (show FAN_OVERRIDE_NONE ≠ FAN_OVERRIDE_OFF by decide)
    · refine ⟨h3, fun hc => ?_, fun _ => rfl⟩
      have hc2 : s.fanOverride = FAN_OVERRIDE_ON := hc
      rw [hov] at hc2
      exact absurd hc2 (show FAN_OVERRIDE_NONE ≠ FAN_OVERRIDE_ON by decide)
  · exact ⟨h3, hon, hoff⟩

theorem ovInv_step (s : LoopState) (inp : Input) (h : OvInv s) : OvInv (step s inp) := by
  unfold step
  refine ovInv_fanDecision _ (ovInv_buttonStep _ _ ?_)
  have h2 := sampleStep_frame (tickStep s inp.wdtTimedOut) inp.adcVal
  have h1 := tickStep_frame s inp.wdtTimedOut
  unfold OvInv at *
  rw [h2.2.2.1, h2.2.2.2, h1.2.2.2.2.1, h1.2.2.2.2.2]
  exact h

theorem ovInv_reachable (s : LoopState) (h : Reachable s) : OvInv s := by
  induction h with
  | init => exact ovInv_init
  | next inp _ ih => exact ovInv_step _ inp ih

/-- A detected press edge advances the override one step in the cycle
NONE→ON→OFF→NONE, given that it currently holds one of the three values. -/
theorem press_cycles (s : LoopState) (hb : s.btnIsPressed = false)
    (h3 : s.fanOverride < 3) :
    (buttonStep s true).fanOverride = (s.fanOverride + 1) % 3 := by
  unfold buttonStep
  rw [if_pos ⟨rfl, hb⟩]
  by_cases h0 : s.fanOverride = FAN_OVERRIDE_NONE
  · rw [if_pos h0]
    show FAN_OVERRIDE_ON = _
    rw [h0]
    decide
  · rw [if_neg h0]
    by_cases h1 : s.fanOverride = FAN_OVERRIDE_ON
    · rw [if_pos h1]
      show FAN_OVERRIDE_OFF = _
      rw [h1]
      decide
    · rw [if_neg h1]
      show FAN_OVERRIDE_NONE = _
      unfold FAN_OVERRIDE_NONE FAN_OVERRIDE_ON at *
      have : s.fanOverride = 2 := by omega
      rw [this]

/-- C4: In every reachable state, `fanOverride` holds exactly one of NONE,
ON, OFF; a detected press edge (raw level pressed while the previous poll
saw not-pressed) advances it exactly one step in the cycle NONE→ON→OFF→NONE
over the full iteration; and at the end of any iteration in which
`fanOverride ≠ NONE` the fan output equals the forced value, regardless of
`hot` and of the age `now - lastHotTime`. -/
theorem claim_C4 (s : LoopState) (h : Reachable s) :
    (s.fanOverride = FAN_OVERRIDE_NONE ∨ s.fanOverride = FAN_OVERRIDE_ON ∨
        s.fanOverride = FAN_OVERRIDE_OFF) ∧
    (∀ inp : Input, inp.btnRaw = true → s.btnIsPressed = false →
        (step s inp).fanOverride = (s.fanOverride + 1) % 3) ∧
    (s.fanOverride = FAN_OVERRIDE_ON → s.fan = true) ∧
    (s.fanOverride = FAN_OVERRIDE_OFF → s.fan = false) := by
  obtain ⟨h3, hon, hoff⟩ := ovInv_reachable s h
  refine ⟨?_, ?_, hon, hoff⟩
  · unfold FAN_OVERRIDE_NONE FAN_OVERRIDE_ON FAN_OVERRIDE_OFF
    omega
  · intro inp hb hbtn
    unfold step
    rw [hb]
    have hmid := sampleStep_frame (tickStep s inp.wdtTimedOut) inp.adcVal
    have htick := tickStep_frame s inp.wdtTimedOut
    rw [(fanDecision_frame _).2.2.2.2,
      press_cycles _ (by rw [hmid.2.1, htick.2.2.2.1]; exact hbtn)
        (by rw [hmid.2.2.1, htick.2.2.2.2.1]; exact h3),
      hmid.2.2.1, htick.2.2.2.2.1]

/-- Witness for C4 at the boot state. -/
theorem claim_C4_witness :
    ((initState.fanOverride = FAN_OVERRIDE_NONE ∨ initState.fanOverride = FAN_OVERRIDE_ON ∨
         initState.fanOverride = FAN_OVERRIDE_OFF) ∧
     (∀ inp : Input, inp.btnRaw = true → initState.btnIsPressed = false →
         (step initState inp).fanOverride = (initState.fanOverride + 1) % 3) ∧
     (initState.fanOverride = FAN_OVERRIDE_ON → initState.fan = true) ∧
     (initState.fanOverride = FAN_OVERRIDE_OFF → initState.fan = false)) :=
  claim_C4 initState Reachable.init

/-! ### Claim C6 -/

/-- C6: Starting from the boot state (`now = 0`, `lastMeasureTemp = 0`,
`lastHotTime = (0 - FAN_COOL_TIME) + 31` mod 256, `hot = false`,
`fanOverride = NONE`), with no button press and every sample reading fully
cold, the fan output is ON in every loop iteration with `now` in 0..30 and
turns OFF at the iteration where `now` reaches 31. -/
theorem claim_C6 (k : Nat) (hk : k ≤ 30) :
    ((bootRun (k + 1)).now = k ∧ (bootRun (k + 1)).fan = true) ∧
    (bootRun 32).now = 31 ∧ (bootRun 32).fan = false := by
  revert k
  decide

/-- Witness for C6 at `now = 30`, the last tick of the boot grace window. -/
theorem claim_C6_witness :
    (((bootRun 31).now = 30 ∧ (bootRun 31).fan = true) ∧
     (bootRun 32).now = 31 ∧ (bootRun 32).fan = false) :=
  claim_C6 30 (by decide)

/-! ### Claim C2 -/

theorem sampleStep_cold (s : LoopState) (adcVal : Nat) (hhot : s.hot = false)
    (hv : COOL_VAL < adcVal % 256) :
    (sampleStep s adcVal).hot = false ∧
    (sampleStep s adcVal).lastHotTime = s.lastHotTime ∧
    (sampleStep s adcVal).now = s.now ∧
    (sampleStep s adcVal).fanOverride = s.fanOverride ∧
    (sampleStep s adcVal).fan = s.fan ∧
    (sampleStep s adcVal).btnIsPressed = s.btnIsPressed ∧
    ((sampleStep s adcVal).lastMeasureTemp = s.now ∨
        (sampleStep s adcVal).lastMeasureTemp = s.lastMeasureTemp) := by
  have hy : hysteresis s.hot (adcVal % 256) = false := by
    unfold hysteresis
    rw [if_pos hv]
  unfold sampleStep
  split
  · refine ⟨hy, ?_, rfl, rfl, rfl, rfl, Or.inl rfl⟩
    show (if hysteresis s.hot (adcVal % 256) = true then s.now else s.lastHotTime)
        = s.lastHotTime
    rw [if_neg (by rw [hy]; exact Bool.false_ne_true)]
  · exact ⟨hhot, rfl, rfl, rfl, rfl, rfl, Or.inr rfl⟩

/-- One full iteration preserves the cool-down invariant, for any input with
a tick, no button press, and a cold (or absent) sample. -/
theorem coolInv_step (T L : Nat) (hT : T < 256) (k : Nat) (s : LoopState)
    (hs : CoolInv T L k s) (inp : Input) (ht : inp.wdtTimedOut = true)
    (hb : inp.btnRaw = false) (hv : COOL_VAL < inp.adcVal % 256) :
    CoolInv T L (k + 1) (step s inp) := by
  obtain ⟨hov, hhot, hnow, hm, hrest⟩ := hs
  have hfr1 := tickStep_frame s true
  have h1now : (tickStep s true).now = (T + (k + 1)) % 256 := by
    unfold tickStep
    rw [if_pos rfl]
    show (s.now + 1) % 256 = _
    rw [hnow]
    omega
  have hcold := sampleStep_cold (tickStep s true) inp.adcVal
      (by rw [hfr1.2.2.1]; exact hhot) hv
  have hfr3 := buttonStep_false_frame (sampleStep (tickStep s true) inp.adcVal)
  have hwnow : (buttonStep (sampleStep (tickStep s true) inp.adcVal) false).now
      = (T + (k + 1)) % 256 := by
    rw [hfr3.1, (sampleStep_frame _ _).1, h1now]
  have hwhot : (buttonStep (sampleStep (tickStep s true) inp.adcVal) false).hot
      = false := by
    rw [hfr3.2.2.2.1, hcold.1]
  have hwov : (buttonStep (sampleStep (tickStep s true) inp.adcVal) false).fanOverride
      = FAN_OVERRIDE_NONE := by
    rw [hfr3.2.2.2.2.1, hcold.2.2.2.1, hfr1.2.2.2.2.1, hov]
  have hwlht : (buttonStep (sampleStep (tickStep s true) inp.adcVal) false).lastHotTime
      = s.lastHotTime := by
    rw [hfr3.2.2.1, hcold.2.1, hfr1.2.1]
  have hwlmt : (buttonStep (sampleStep (tickStep s true) inp.adcVal) false).lastMeasureTemp
      < 256 := by
    rw [hfr3.2.1]
    rcases hcold.2.2.2.2.2.2 with hl | hl
    · rw [hl, h1now]
      omega
    · rw [hl, hfr1.1]
      exact hm
  unfold step
  rw [ht, hb]
  by_cases hc : sub8 T L + (k + 1) < FAN_COOL_TIME
  · have hk : sub8 T L + k < FAN_COOL_TIME := by omega
    rw [if_pos hk] at hrest
    have hage : sub8 (buttonStep (sampleStep (tickStep s true) inp.adcVal) false).now
        (buttonStep (sampleStep (tickStep s true) inp.adcVal) false).lastHotTime
        < FAN_COOL_TIME := by
      rw [hwnow, hwlht, hrest.1, sub8_add_left T L (k + 1) hT]
      have h256 : (sub8 T L + (k + 1)) % 256 = sub8 T L + (k + 1) := by
        unfold FAN_COOL_TIME at hc
        omega
      rw [h256]
      exact hc
    have heq := (fanDecision_auto _ hwov).1 (Or.inr hage)
    unfold CoolInv
    rw [heq, if_pos hc]
    exact ⟨hwov, hwhot, hwnow, hwlmt, hwlht.trans hrest.1, rfl⟩
  · by_cases hk : sub8 T L + k < FAN_COOL_TIME
    · rw [if_pos hk] at hrest
      have h125 : sub8 T L + (k + 1) = FAN_COOL_TIME := by
        unfold FAN_COOL_TIME at *
        omega
      have hage : FAN_COOL_TIME ≤
          sub8 (buttonStep (sampleStep (tickStep s true) inp.adcVal) false).now
            (buttonStep (sampleStep (tickStep s true) inp.adcVal) false).lastHotTime := by
        rw [hwnow, hwlht, hrest.1, sub8_add_left T L (k + 1) hT, h125]
        unfold FAN_COOL_TIME
        omega
      have heq := (fanDecision_auto _ hwov).2 hwhot hage
      unfold CoolInv
      rw [heq, if_neg hc]
      exact ⟨hwov, hwhot, hwnow, hwlmt, rfl, rfl⟩
    · rw [if_neg hk] at hrest
      have hage : FAN_COOL_TIME ≤
          sub8 (buttonStep (sampleStep (tickStep s true) inp.adcVal) false).now
            (buttonStep (sampleStep (tickStep s true) inp.adcVal) false).lastHotTime := by
        rw [hwnow, hwlht, hrest.1, hnow]
        have hstep : (T + (k + 1)) % 256 = (((T + k) % 256) + 1) % 256 := by omega
        rw [hstep, sub8_succ_rewind ((T + k) % 256)]
        unfold FAN_COOL_TIME
        omega
      have heq := (fanDecision_auto _ hwov).2 hwhot hage
      unfold CoolInv
      rw [heq, if_neg hc]
      exact ⟨hwov, hwhot, hwnow, hwlmt, rfl, rfl⟩

theorem coolInv_runF (f : Nat → Input)
    (hf : ∀ n, (f n).wdtTimedOut = true ∧ (f n).btnRaw = false ∧
        COOL_VAL < (f n).adcVal % 256)
    (T L : Nat) (hT : T < 256) (s : LoopState) (hs : CoolInv T L 0 s) (k : Nat) :
    CoolInv T L k (runF f s k) := by
  induction k with
  | zero => exact hs
  | succ k ih =>
      exact coolInv_step T L hT k (runF f s k) ih (f k) (hf k).1 (hf k).2.1 (hf k).2.2

/-- C2 (amended): in a cool-down run (tick every iteration, no button press,
all samples cold) starting at the end of the iteration at tick `T = s.now`
in which `hot` went false — so `lastHotTime` holds `L = s.lastHotTime`, the
tick of the last sample at which `hot` was true — the fan stays ON for
exactly `FAN_COOL_TIME - ((T - L) mod 256)` further iterations and then
turns OFF, i.e. it turns OFF when `now` reaches `L + FAN_COOL_TIME`
(mod 256), not `T + FAN_COOL_TIME`, and stays off. -/
theorem claim_C2_amended (f : Nat → Input)
    (hf : ∀ n, (f n).wdtTimedOut = true ∧ (f n).btnRaw = false ∧
        COOL_VAL < (f n).adcVal % 256)
    (s : LoopState) (hov : s.fanOverride = FAN_OVERRIDE_NONE) (hhot : s.hot = false)
    (hT : s.now < 256) (hM : s.lastMeasureTemp < 256)
    (hgrace : sub8 s.now s.lastHotTime < FAN_COOL_TIME) (hfan : s.fan = true)
    (k : Nat) :
    (runF f s k).now = (s.now + k) % 256 ∧
    ((runF f s k).fan = true ↔ sub8 s.now s.lastHotTime + k < FAN_COOL_TIME) := by
  have hs0 : CoolInv s.now s.lastHotTime 0 s := by
    unfold CoolInv
    refine ⟨hov, hhot, by omega, hM, ?_⟩
    rw [if_pos (by omega : sub8 s.now s.lastHotTime + 0 < FAN_COOL_TIME)]
    exact ⟨rfl, hfan⟩
  obtain ⟨_, _, hnow, _, hrest⟩ := coolInv_runF f hf s.now s.lastHotTime hT s hs0 k
  refine ⟨hnow, ?_⟩
  by_cases hc : sub8 s.now s.lastHotTime + k < FAN_COOL_TIME
  · rw [if_pos hc] at hrest
    exact ⟨fun _ => hc, fun _ => hrest.2⟩
  · rw [if_neg hc] at hrest
    refine ⟨fun hfan2 => ?_, fun hcc => absurd hcc hc⟩
    rw [hrest.2] at hfan2
    exact absurd hfan2 Bool.false_ne_true

/-- Witness for the amended C2, ten iterations into the cool-down of the
state reached at tick 64 of the concrete run (`lastHotTime = 32`). -/
theorem claim_C2_amended_witness :
    (runF coolInputsConst ⟨64, 64, 32, false, false, 0, true⟩ 10).now = (64 + 10) % 256 ∧
    ((runF coolInputsConst ⟨64, 64, 32, false, false, 0, true⟩ 10).fan = true ↔
        sub8 64 32 + 10 < FAN_COOL_TIME) :=
  claim_C2_amended coolInputsConst
    (fun _ => ⟨rfl, rfl, show COOL_VAL < 30 % 256 by decide⟩)
    ⟨64, 64, 32, false, false, 0, true⟩ rfl rfl (by decide) (by decide) (by decide) rfl 10

/-- C2 (counterexample to the claim as stated): in the concrete run
`c2Run`, `hot` transitions from true to false at the sample taken at tick
`T = 64` and stays false, with `fanOverride = NONE` throughout, yet the fan
output is already OFF at tick 157, which lies inside the claimed window
`[T, T + FAN_COOL_TIME)` = [64, 189): the cool-down runs from
`lastHotTime = 32` (the last hot sample), so the fan turns off at tick
32 + 125 = 157, not at 64 + 125 = 189. -/
theorem claim_C2_counterexample :
    (c2Run 63).hot = true ∧ (c2Run 64).hot = false ∧ (c2Run 64).now = 64 ∧
    (c2Run 64).lastMeasureTemp = 64 ∧ c2ClaimPremises = true ∧
    (c2Run 157).now = 157 ∧ (c2Run 157).fan = false ∧
    64 ≤ 157 ∧ 157 < 64 + FAN_COOL_TIME := by
  decide

/-! ### Claim C9 -/

theorem blinkSpec_zero : blinkSpec 0 = blinkInit := by decide

theorem blinkStep_case1 (j : Nat) (h : j + 1 < BLINK_OFF_STEPS) :
    blinkStep { fan := false, phase2 := false, i := j, armed := true }
      = { fan := false, phase2 := false, i := j + 1, armed := true } := by
  unfold blinkStep
  rw [if_pos rfl, if_pos h]

theorem blinkStep_case2 (j : Nat) (h : ¬ j + 1 < BLINK_OFF_STEPS) :
    blinkStep { fan := false, phase2 := false, i := j, armed := true }
      = { fan := true, phase2 := true, i := 0, armed := true } := by
  unfold blinkStep
  rw [if_pos rfl, if_neg h]

theorem blinkStep_case3 (j : Nat) (h : j + 1 < BLINK_ON_STEPS) :
    blinkStep { fan := true, phase2 := true, i := j, armed := true }
      = { fan := true, phase2 := true, i := j + 1, armed := true } := by
  unfold blinkStep
  rw [if_neg (show ¬(true = false) from fun hh => Bool.noConfusion hh), if_pos h]

theorem blinkStep_case4 (j : Nat) (h : ¬ j + 1 < BLINK_ON_STEPS) :
    blinkStep { fan := true, phase2 := true, i := j, armed := true }
      = { fan := false, phase2 := false, i := 0, armed := true } := by
  unfold blinkStep
  rw [if_neg (show ¬(true = false) from fun hh => Bool.noConfusion hh), if_neg h]

theorem blinkStep_spec (t : Nat) : blinkStep (blinkSpec t) = blinkSpec (t + 1) := by
  by_cases hA : t % (BLINK_OFF_STEPS + BLINK_ON_STEPS) < BLINK_OFF_STEPS
  · by_cases hB : t % (BLINK_OFF_STEPS + BLINK_ON_STEPS) + 1 < BLINK_OFF_STEPS
    · have ht1 : (t + 1) % (BLINK_OFF_STEPS + BLINK_ON_STEPS)
          = t % (BLINK_OFF_STEPS + BLINK_ON_STEPS) + 1 := by
        unfold BLINK_OFF_STEPS BLINK_ON_STEPS at *
        omega
      unfold blinkSpec
      rw [if_pos hA, blinkStep_case1 _ hB, ht1, if_pos hB]
    · have ht1 : (t + 1) % (BLINK_OFF_STEPS + BLINK_ON_STEPS) = BLINK_OFF_STEPS := by
        unfold BLINK_OFF_STEPS BLINK_ON_STEPS at *
        omega
      unfold blinkSpec
      rw [if_pos hA, blinkStep_case2 _ hB, ht1, if_neg (Nat.lt_irrefl BLINK_OFF_STEPS)]
      rw [Nat.sub_self]
  · by_cases hB : t % (BLINK_OFF_STEPS + BLINK_ON_STEPS) + 1
        < BLINK_OFF_STEPS + BLINK_ON_STEPS
    · have ht1 : (t + 1) % (BLINK_OFF_STEPS + BLINK_ON_STEPS)
          = t % (BLINK_OFF_STEPS + BLINK_ON_STEPS) + 1 := by
        unfold BLINK_OFF_STEPS BLINK_ON_STEPS at *
        omega
      have hj : t % (BLINK_OFF_STEPS + BLINK_ON_STEPS) - BLINK_OFF_STEPS + 1
          < BLINK_ON_STEPS := by
        unfold BLINK_OFF_STEPS BLINK_ON_STEPS at *
        omega
      have harith : t % (BLINK_OFF_STEPS + BLINK_ON_STEPS) + 1 - BLINK_OFF_STEPS
          = t % (BLINK_OFF_STEPS + BLINK_ON_STEPS) - BLINK_OFF_STEPS + 1 := by
        unfold BLINK_OFF_STEPS BLINK_ON_STEPS at *
        omega
      unfold blinkSpec
      rw [if_neg hA, blinkStep_case3 _ hj, ht1,
        if_neg (show ¬ t % (BLINK_OFF_STEPS + BLINK_ON_STEPS) + 1 < BLINK_OFF_STEPS by
          unfold BLINK_OFF_STEPS BLINK_ON_STEPS at *
          omega),
        harith]
    · have ht1 : (t + 1) % (BLINK_OFF_STEPS + BLINK_ON_STEPS) = 0 := by
        unfold BLINK_OFF_STEPS BLINK_ON_STEPS at *
        omega
      have hj : ¬ t % (BLINK_OFF_STEPS + BLINK_ON_STEPS) - BLINK_OFF_STEPS + 1
          < BLINK_ON_STEPS := by
        unfold BLINK_OFF_STEPS BLINK_ON_STEPS at *
        omega
      unfold blinkSpec
      rw [if_neg hA, blinkStep_case4 _ hj, ht1,
        if_pos (show (0 : Nat) < BLINK_OFF_STEPS by unfold BLINK_OFF_STEPS; omega)]

theorem blinkIter_spec (t : Nat) : blinkIter t = blinkSpec t := by
  induction t with
  | zero => exact blinkSpec_zero.symm
  | succ t ih =>
      show blinkStep (blinkIter t) = blinkSpec (t + 1)
      rw [ih, blinkStep_spec]

theorem sysRun_blinkIter (l : List Input) (t : Nat) :
    sysRun (SysMode.blink (blinkIter t)) l = SysMode.blink (blinkIter (t + l.length)) := by
  induction l generalizing t with
  | nil => rfl
  | cons inp rest ih =>
      show sysRun (sysStep (SysMode.blink (blinkIter t)) inp) rest
          = SysMode.blink (blinkIter (t + (rest.length + 1)))
      have hone : sysStep (SysMode.blink (blinkIter t)) inp
          = SysMode.blink (blinkIter (t + 1)) := rfl
      rw [hone, ih (t + 1)]
      have harg : t + 1 + rest.length = t + (rest.length + 1) := by omega
      rw [harg]

/-- C9: If the captured reset-cause mirror has the watchdog-reset flag
(`WDRF`) set at boot, control enters the terminal blink loop and never
reaches the normal control loop: every further system step stays in blink
mode, the fan is OFF for the first `BLINK_OFF_STEPS` (20000 × 100 µs ≈ 2 s)
delay steps of each period and ON for the remaining `BLINK_ON_STEPS`
(5000 × 100 µs ≈ 0.5 s), and the watchdog is re-armed by every delay step,
i.e. at intervals of one ~100 µs step ≤ 60 ms.  If the flag is clear, the
normal loop is entered and normal steps never reach blink mode. -/
theorem claim_C9 (r t : Nat) (l : List Input) :
    (r.testBit WDRF = true →
        bootDispatch r = SysMode.blink blinkInit ∧
        sysRun (bootDispatch r) l = SysMode.blink (blinkIter l.length) ∧
        (blinkIter t).fan
          = decide (BLINK_OFF_STEPS ≤ t % (BLINK_OFF_STEPS + BLINK_ON_STEPS)) ∧
        (blinkIter (t + 1)).armed = true) ∧
    (r.testBit WDRF = false → bootDispatch r = SysMode.normal initState) ∧
    (∀ (s : LoopState) (inp : Input),
        sysStep (SysMode.normal s) inp = SysMode.normal (step s inp)) ∧
    BLINK_OFF_STEPS * DELAY_STEP_US = 2000000 ∧
    BLINK_ON_STEPS * DELAY_STEP_US = 500000 ∧
    DELAY_STEP_US ≤ WDT_TIMEOUT_US := by
  refine ⟨fun hw => ?_, fun hw => ?_, fun s inp => rfl, by decide, by decide, by decide⟩
  · have hdispatch : bootDispatch r = SysMode.blink blinkInit := by
      unfold bootDispatch
      rw [if_pos hw]
    refine ⟨hdispatch, ?_, ?_, ?_⟩
    · rw [hdispatch]
      have hrun := sysRun_blinkIter l 0
      rw [Nat.zero_add] at hrun
      exact hrun
    · rw [blinkIter_spec]
      unfold blinkSpec
      by_cases h : t % (BLINK_OFF_STEPS + BLINK_ON_STEPS) < BLINK_OFF_STEPS
      · rw [if_pos h]
        exact (decide_eq_false (by
          unfold BLINK_OFF_STEPS BLINK_ON_STEPS at *
          omega)).symm
      · rw [if_neg h]
        exact (decide_eq_true (by
          unfold BLINK_OFF_STEPS BLINK_ON_STEPS at *
          omega)).symm
    · rw [blinkIter_spec]
      unfold blinkSpec
      split
      · rfl
      · rfl
  · unfold bootDispatch
    rw [if_neg (by rw [hw]; exact Bool.false_ne_true)]

/-- Witness for C9: reset-cause value 8 (WDRF set) enters the blink loop,
reset-cause value 0 (WDRF clear) enters the normal loop. -/
theorem claim_C9_witness :
    (bootDispatch 8 = SysMode.blink blinkInit ∧
     sysRun (bootDispatch 8) ([] : List Input)
        = SysMode.blink (blinkIter (List.length ([] : List Input))) ∧
     (blinkIter 0).fan
        = decide (BLINK_OFF_STEPS ≤ 0 % (BLINK_OFF_STEPS + BLINK_ON_STEPS)) ∧
     (blinkIter (0 + 1)).armed = true) ∧
    bootDispatch 0 = SysMode.normal initState :=
  ⟨(claim_C9 8 0 ([] : List Input)).1 (by decide),
   (claim_C9 0 0 ([] : List Input)).2.1 (by decide)⟩
